import Mathlib

/-!
Verification of the arb-ami arbitrage bot core against its specification.

The development shallowly embeds the Python sources in Lean 4:
prices and quantities are exact rationals, the mutable dictionaries of
src/core/price_collector.py and src/exchanges/panora.py are association
lists whose lookup returns the most recent binding, wall-clock time is an
explicit rational parameter, and fallible operations return Option/Except.
Each definition is translated from one named function of the repository.
-/

namespace ArbAmi

/-! ## src/core/price_collector.py -/

/-- PriceData from src/core/price_collector.py: one top-of-book snapshot.
The constructor records the wall-clock time of the write. -/
structure PriceData where
  bid : ℚ
  ask : ℚ
  bid_qty : ℚ
  ask_qty : ℚ
  timestamp : ℚ
deriving DecidableEq, Repr

/-- PriceData.age: seconds since the last update, at wall-clock instant now. -/
def PriceData.age (p : PriceData) (now : ℚ) : ℚ :=
  now - p.timestamp

/-- PriceData.is_stale: age greater than max_age; the source default for
max_age is 10.0 seconds. -/
def PriceData.isStale (p : PriceData) (now : ℚ) (max_age : ℚ := 10) : Bool :=
  decide (p.age now > max_age)

/-- The PriceCollector store: a map (symbol, exchange) to PriceData,
modelled as an association list where the head-most binding is current. -/
abbrev Collector := List ((String × String) × PriceData)

/-- PriceCollector.update: reject non-positive bid or ask, otherwise
replace the entry for (symbol, exchange) with a fresh PriceData stamped
at time now. -/
def Collector.update (c : Collector) (exchange symbol : String)
    (bid ask bid_qty ask_qty now : ℚ) : Collector :=
  if bid ≤ 0 ∨ ask ≤ 0 then c
  else ((symbol, exchange), ⟨bid, ask, bid_qty, ask_qty, now⟩) :: c

/-- PriceCollector.get_exchange: price data for a specific (symbol,
exchange), or none. -/
def Collector.getExchange (c : Collector) (symbol exchange : String) :
    Option PriceData :=
  (c.find? (fun e => decide (e.1 = (symbol, exchange)))).map (·.2)

/-- Collector states reachable from the empty store by update calls. -/
inductive Collector.Reachable : Collector → Prop
  | nil : Collector.Reachable []
  | update (c : Collector) (exchange symbol : String)
      (bid ask bid_qty ask_qty now : ℚ) :
      Collector.Reachable c →
      Collector.Reachable (c.update exchange symbol bid ask bid_qty ask_qty now)

/-! ## src/core/arbitrage_engine.py: profit function -/

/-- ArbitrageEngine._calc_profit: returns (buy_volume, sell_volume,
net_profit). -/
def calcProfit (buy_price sell_price qty buy_fee_rate sell_fee_rate : ℚ) :
    ℚ × ℚ × ℚ :=
  let buy_vol := qty * buy_price
  let sell_vol := qty * sell_price
  (buy_vol, sell_vol,
   sell_vol - buy_vol - buy_vol * buy_fee_rate - sell_vol * sell_fee_rate)

/-! ## src/core/trade_executor.py: quantity flooring and CEX legs -/

/-- _floor_qty from src/core/trade_executor.py: tiered flooring to
exchange lot-size precision. -/
def floorQty (qty : ℚ) : ℚ :=
  if qty ≥ 100 then (⌊qty⌋ : ℚ)
  else if qty ≥ 1 then (⌊qty * 100⌋ : ℚ) / 100
  else if qty ≥ 1 / 100 then (⌊qty * 10000⌋ : ℚ) / 10000
  else (⌊qty * 1000000⌋ : ℚ) / 1000000

/-- Outcome of TradeExecutor._cex_sell before the venue dispatch: either
the quantity floored to a non-positive value and the leg aborts with an
error, or a market order for the floored quantity is placed. -/
inductive CexLegOutcome where
  | qtyZeroError
  | orderPlaced (qty : ℚ)
deriving DecidableEq, Repr

/-- TradeExecutor._cex_sell: floor the quantity; abort with an error when
it flooring makes it non-positive, otherwise place the market order. -/
def cexSell (qty : ℚ) : CexLegOutcome :=
  let q := floorQty qty
  if q ≤ 0 then .qtyZeroError else .orderPlaced q

/-! ## src/exchanges/panora_executor.py: gas budgeting -/

/-- PanoraExecutor class constants. -/
def GAS_UNIT_PRICE : ℕ := 100

def MIN_GAS_UNITS : ℕ := 5000

def MAX_GAS_UNITS : ℕ := 200000

/-- PanoraExecutor._compute_max_gas: none means the balance query failed,
in which case the full default cap is used; otherwise cap at
min(MAX_GAS_UNITS, floor(0.9 * octas) / GAS_UNIT_PRICE). -/
def computeMaxGas (apt_octas : Option ℕ) : ℕ :=
  match apt_octas with
  | none => MAX_GAS_UNITS
  | some b => min MAX_GAS_UNITS (9 * b / 10 / GAS_UNIT_PRICE)

/-- Outcome of step 5 of PanoraExecutor.execute_swap: either the swap is
refused for insufficient gas before anything is signed, or it proceeds to
sign and submit with the computed max_gas_amount. -/
inductive GasStepOutcome where
  | insufficientGas
  | submitted (max_gas : ℕ)
deriving DecidableEq, Repr

/-- Step 5 of PanoraExecutor.execute_swap: query the APT balance, compute
max gas, and refuse with an insufficient-gas error when the balance query
succeeded and the computed budget is below MIN_GAS_UNITS; when the query
failed (none) the guard is skipped entirely. -/
def execSwapGasStep (apt_octas : Option ℕ) : GasStepOutcome :=
  let max_gas := computeMaxGas apt_octas
  match apt_octas with
  | some _ => if max_gas < MIN_GAS_UNITS then .insufficientGas
              else .submitted max_gas
  | none => .submitted max_gas

/-! ## src/config/settings.py -/

/-- Settings from src/config/settings.py (the fields the engine and the
executor evaluate; credential and URL strings are omitted). -/
structure Settings where
  bybit_fee : ℚ
  mexc_fee : ℚ
  panora_fee : ℚ
  slippage_tolerance_pct : ℚ
  panora_api_slippage_pct : ℚ
  panora_poll_interval : ℚ
  arb_check_interval : ℚ
  min_profit_threshold : ℚ
  dry_run : Bool
  trade_amount_usdt : ℚ
  skip_panora_verify : Bool
  exec_quote_max_age_s : ℚ
  dex_cex_quote_max_age_s : ℚ
  tri_quote_max_age_s : ℚ
  quote_price_deviation_threshold_pct : ℚ
  aptos_max_gas : ℕ
deriving Repr

/-- The environment-variable defaults of src/config/settings.py. -/
def defaultSettings : Settings where
  bybit_fee := 1 / 1000
  mexc_fee := 1 / 1000
  panora_fee := 1 / 1000
  slippage_tolerance_pct := 1 / 10
  panora_api_slippage_pct := 1 / 10
  panora_poll_interval := 133 / 100
  arb_check_interval := 1 / 10
  min_profit_threshold := 1
  dry_run := true
  trade_amount_usdt := 10
  skip_panora_verify := false
  exec_quote_max_age_s := 2
  dex_cex_quote_max_age_s := 3 / 2
  tri_quote_max_age_s := 5 / 2
  quote_price_deviation_threshold_pct := 1 / 2
  aptos_max_gas := 200000

/-! ## Python keyword-argument semantics for the engine to client calls

PanoraClient.get_swap_quote (src/exchanges/panora.py, lines 119 to 125)
accepts exactly these keyword parameters. A Python call that passes a
keyword absent from the parameter list raises TypeError at call time. -/

/-- The keyword parameters of PanoraClient.get_swap_quote, read off its
def line in src/exchanges/panora.py. -/
def panoraGetSwapQuoteParams : List String :=
  ["from_token_amount", "from_token_address", "to_token_address", "force_fresh"]

/-- Python call semantics for keyword arguments: succeed when every
keyword passed is a declared parameter, otherwise raise TypeError. -/
def pyKwargsCall (params kwargs : List String) : Except String Unit :=
  if kwargs.all (fun k => params.contains k) then .ok ()
  else .error "TypeError"

/-- The keyword arguments of the skip-verify call in
ArbitrageEngine._check_dex_cex (src/core/arbitrage_engine.py, lines 224
to 229): the amount is positional, the rest are keywords. -/
def engineSkipVerifyKwargs : List String :=
  ["from_token_address", "to_token_address", "slippage_pct"]

/-! ## src/core/arbitrage_engine.py: detection checks -/

/-- Where one run of ArbitrageEngine._check_dex_cex direction 1
(buy Panora, sell CEX) ends. -/
inductive DexCexOutcome where
  | staleAbort
  | skipped
  | raisedTypeError
  | dispatched (profit : ℚ)
  | verifyPath (profit : ℚ)
deriving DecidableEq, Repr

/-- Direction 1 of ArbitrageEngine._check_dex_cex, up to the point where
it either aborts on staleness, skips (zero quantity or profit at or below
threshold), enters the skip-verify branch (whose get_swap_quote call
passes the keyword slippage_pct), or enters the cooldown-and-verify path.
The is_stale calls in the source pass no max_age, so the default 10 is
used. -/
def checkDexCexDir1 (s : Settings) (panora cex : PriceData)
    (now cex_fee : ℚ) : DexCexOutcome :=
  if panora.isStale now || cex.isStale now then .staleAbort
  else
    let qty := min panora.ask_qty cex.bid_qty
    if qty ≤ 0 then .skipped
    else
      let profit := (calcProfit panora.ask cex.bid qty s.panora_fee cex_fee).2.2
      if profit ≤ s.min_profit_threshold then .skipped
      else if s.skip_panora_verify then
        match pyKwargsCall panoraGetSwapQuoteParams engineSkipVerifyKwargs with
        | .error _ => .raisedTypeError
        | .ok _ => .dispatched profit
      else .verifyPath profit

/-- Where one run of ArbitrageEngine._check_triangular_apt_ami direction 1
(buy APT on CEX, swap APT to AMI on Panora, sell AMI on CEX) ends, up to
the point where detection succeeds. -/
inductive TriCheckOutcome where
  | staleAbort
  | belowThreshold (profit_est : ℚ)
  | detected (profit_est : ℚ)
deriving DecidableEq, Repr

/-- Direction 1 of ArbitrageEngine._check_triangular_apt_ami, up to the
estimated-profit threshold decision: abort when a CEX quote is stale,
skip the direction when the Panora APT to AMI quote is missing or stale,
otherwise estimate profit from store prices and detect when it exceeds
min_profit_threshold. All three is_stale calls in the source pass no
max_age, so the default 10 is used. -/
def checkTriDir1 (s : Settings) (cex_ami cex_apt : PriceData)
    (pan_apt_ami : Option PriceData) (now cex_fee : ℚ) : TriCheckOutcome :=
  if cex_ami.isStale now || cex_apt.isStale now then .staleAbort
  else
    match pan_apt_ami with
    | none => .staleAbort
    | some pan =>
      if pan.isStale now then .staleAbort
      else
        let notional := s.trade_amount_usdt
        let qty_apt_est := notional / cex_apt.ask
        let ami_est := qty_apt_est * pan.ask
        let usdt_out_est := ami_est * cex_ami.bid
        let fees_est := notional * cex_fee + notional * s.panora_fee
          + usdt_out_est * cex_fee
        let profit_est := usdt_out_est - notional - fees_est
        if profit_est > s.min_profit_threshold then .detected profit_est
        else .belowThreshold profit_est

/-! ## src/core/arbitrage_engine.py: per-direction verify cooldown

The engine keeps self._last_verify, a dict from direction key to the
wall-clock time of the last verify call, compared against
self._VERIFY_COOLDOWN_S = 3.0. Each tick that observes a profitable
opportunity for a direction runs: if now minus last_verify.get(key, 0)
is below 3, skip; otherwise set last_verify[key] = now and issue the
verify call. -/

/-- The _last_verify dict: direction key to last verify time, as an
association list whose head-most binding is current. -/
abbrev VerifyState := List (String × ℚ)

/-- VERIFY_COOLDOWN_S from ArbitrageEngine.__init__. -/
def VERIFY_COOLDOWN_S : ℚ := 3

/-- self._last_verify.get(key, 0). -/
def lookupLastVerify (st : VerifyState) (k : String) : ℚ :=
  match st.find? (fun e => decide (e.1 = k)) with
  | some e => e.2
  | none => 0

/-- Run the engine over a chronological list of (direction key, tick
time) events, each standing for one tick that observed a profitable
opportunity for that direction; return the (key, time) list of verify
calls actually issued. -/
def engineVerifyRun (st : VerifyState) : List (String × ℚ) → List (String × ℚ)
  | [] => []
  | e :: es =>
    if e.2 - lookupLastVerify st e.1 < VERIFY_COOLDOWN_S then
      engineVerifyRun st es
    else
      e :: engineVerifyRun ((e.1, e.2) :: st) es

/-- The times of the verify calls issued for one direction key. -/
def callsFor (k : String) (trace : List (String × ℚ)) : List ℚ :=
  (trace.filter (fun e => decide (e.1 = k))).map (·.2)

/-! ## src/core/trade_executor.py: triangular execution path -/

/-- The externally visible actions of
TradeExecutor._execute_triangular_locked. -/
inductive TriAction where
  | balanceCheck
  | emitSignal (balance_gate_pass : Bool)
  | dexSwap
  | cexOrder
deriving DecidableEq, Repr

/-- TradeExecutor._check_tri_balances_apt_to_ami: ok stays true unless
the wallet APT balance was read and is below qty_apt, or the CEX AMI
balance is below ami_to_sell (a failed wallet read, none, is treated as
ok by the source). -/
def checkTriBalancesAptToAmi (apt_bal : Option ℚ) (cex_ami_bal : ℚ)
    (qty_apt ami_to_sell : ℚ) : Bool :=
  (match apt_bal with
   | some b => !decide (b < qty_apt)
   | none => true) && !decide (cex_ami_bal < ami_to_sell)

/-- The APT_TO_AMI branch of TradeExecutor._execute_triangular_locked,
after the safe-quantity computation, as an action trace plus the returned
Bool. In dry-run it runs the balance check, emits the signal carrying the
gate outcome, and returns True (the following return False in the source
is unreachable). In live mode it issues the Panora swap immediately; a
failed or timed-out swap (none) aborts before the CEX leg, and otherwise
the CEX sell is placed and its failure reported. The balance-check
functions are not called on the live path. -/
def execTriLockedAptToAmi (dry_run : Bool) (apt_bal : Option ℚ)
    (cex_ami_bal : ℚ) (safe_qty ami_to_sell : ℚ)
    (swap_result cex_result : Option String) : List TriAction × Bool :=
  if dry_run then
    let gate := checkTriBalancesAptToAmi apt_bal cex_ami_bal safe_qty ami_to_sell
    ([.balanceCheck, .emitSignal gate], true)
  else
    match swap_result with
    | none => ([.dexSwap], false)
    | some _ =>
      match cex_result with
      | none => ([.dexSwap, .cexOrder], false)
      | some _ => ([.dexSwap, .cexOrder], true)

/-! ## src/exchanges/panora.py: quote caches -/

/-- A Panora quote as the caches see it: the parsed toTokenAmount and the
synthetic marker (_synthetic key). -/
structure PQuote where
  toTokenAmount : ℚ
  synthetic : Bool
deriving DecidableEq, Repr

/-- PanoraClient cache state: the exact-quote cache keyed by
(from, to, rounded amount), and the unit-price cache keyed by (from, to);
values carry the fetched_at timestamp. Association lists, head-most
binding current. -/
structure ClientState where
  quoteCache : List ((String × String × ℚ) × (PQuote × ℚ))
  unitPriceCache : List ((String × String) × (ℚ × ℚ))
deriving Repr

/-- The current unit-price cache binding for a direction, if any. -/
def findUnitPriceEntry (st : ClientState) (f t : String) : Option (ℚ × ℚ) :=
  (st.unitPriceCache.find? (fun e => decide (e.1 = (f, t)))).map (·.2)

/-- PanoraClient._get_unit_price: the cached price per unit when the
entry is younger than the TTL, else none. -/
def getUnitPrice (st : ClientState) (f t : String) (now ttl : ℚ) : Option ℚ :=
  match findUnitPriceEntry st f t with
  | some (p, fetched) => if now - fetched < ttl then some p else none
  | none => none

/-- PanoraClient._store_unit_price: persist to_amount / from_amount when
both are positive, stamped at time now. -/
def storeUnitPrice (st : ClientState) (f t : String)
    (from_amount to_amount now : ℚ) : ClientState :=
  if from_amount > 0 ∧ to_amount > 0 then
    { st with unitPriceCache :=
        ((f, t), (to_amount / from_amount, now)) :: st.unitPriceCache }
  else st

/-- The decimal exponent e with 10 ^ e ≤ q < 10 ^ (e + 1), for q > 0. -/
def decExp (q : ℚ) : ℤ :=
  if q ≥ 1 then (Nat.log 10 ⌊q⌋.toNat : ℤ)
  else
    let c := Nat.log 10 ⌊1 / q⌋.toNat
    if q * (10 : ℚ) ^ c ≥ 1 then -(c : ℤ) else -((c : ℤ) + 1)

/-- PanoraClient._cache_key rounding, float(f-string with .6g): round the
amount to six significant decimal digits (exact-arithmetic model of the
round-trip through the decimal format). -/
def round6 (q : ℚ) : ℚ :=
  if q = 0 then 0
  else
    let s : ℚ := (10 : ℚ) ^ ((5 : ℤ) - decExp |q|)
    (if q > 0 then 1 else -1) * ((round (|q| * s) : ℚ) / s)

/-- PanoraClient._cache_key: (from, to, amount rounded to six significant
figures). -/
def cacheKey (f t : String) (amount : ℚ) : String × String × ℚ :=
  (f, t, round6 amount)

/-- PanoraClient._get_cached_quote: the exact-cache entry under
_cache_key, when younger than the TTL. -/
def getCachedQuote (st : ClientState) (f t : String) (amount now ttl : ℚ) :
    Option PQuote :=
  match (st.quoteCache.find? (fun e => decide (e.1 = cacheKey f t amount))).map (·.2) with
  | some (q, fetched) => if now - fetched < ttl then some q else none
  | none => none

/-- Where the cached portion of PanoraClient.get_swap_quote ends: an
exact cache hit, a synthetic quote built from the unit-price cache, or a
fall-through to the HTTP request path. -/
inductive QuoteResult where
  | cached (q : PQuote)
  | synthetic (toAmount unitPrice : ℚ)
  | httpRequest
deriving DecidableEq, Repr

/-- The force_fresh and cache steps of PanoraClient.get_swap_quote:
force_fresh bypasses both caches; otherwise an exact hit is returned
first, then a fresh unit price synthesizes toTokenAmount = price times
amount, and only if both miss does the HTTP path run. -/
def getSwapQuoteCached (st : ClientState) (f t : String)
    (from_token_amount : ℚ) (force_fresh : Bool) (now ttl : ℚ) : QuoteResult :=
  if force_fresh then .httpRequest
  else
    match getCachedQuote st f t from_token_amount now ttl with
    | some q => .cached q
    | none =>
      match getUnitPrice st f t now ttl with
      | some p => .synthetic (p * from_token_amount) p
      | none => .httpRequest

/-! ## Theorems -/

/-- C2. A PriceCollector.update with positive bid and ask replaces the
entry and a subsequent get on the same (symbol, venue) returns exactly
those values; an update with non-positive bid or ask leaves the store
unchanged; consequently on every store reachable from empty, get never
observes a non-positive price. -/
theorem c2_update_get :
    (∀ (c : Collector) (exchange symbol : String) (bid ask bid_qty ask_qty now : ℚ),
      0 < bid → 0 < ask →
      (c.update exchange symbol bid ask bid_qty ask_qty now).getExchange symbol exchange
        = some ⟨bid, ask, bid_qty, ask_qty, now⟩) ∧
    (∀ (c : Collector) (exchange symbol : String) (bid ask bid_qty ask_qty now : ℚ),
      bid ≤ 0 ∨ ask ≤ 0 →
      c.update exchange symbol bid ask bid_qty ask_qty now = c) ∧
    (∀ c : Collector, c.Reachable →
      ∀ (symbol exchange : String) (p : PriceData),
        c.getExchange symbol exchange = some p → 0 < p.bid ∧ 0 < p.ask) := by
  refine ⟨?_, ?_, ?_⟩
  · intro c ex sym bid ask bq aq now hb ha
    have h : ¬(bid ≤ 0 ∨ ask ≤ 0) := by push_neg; exact ⟨hb, ha⟩
    rw [Collector.update, if_neg h, Collector.getExchange,
      List.find?_cons_of_pos _ (by simp)]
    rfl
  · intro c ex sym bid ask bq aq now h
    rw [Collector.update, if_pos h]
  · intro c hc
    induction hc with
    | nil => intro sym ex p hp; simp [Collector.getExchange, List.find?] at hp
    | update c ex sym bid ask bq aq now _ ih =>
      intro sym2 ex2 p hp
      by_cases hv : bid ≤ 0 ∨ ask ≤ 0
      · rw [Collector.update, if_pos hv] at hp
        exact ih sym2 ex2 p hp
      · rw [Collector.update, if_neg hv] at hp
        push_neg at hv
        by_cases hk : (sym, ex) = (sym2, ex2)
        · rw [Collector.getExchange, List.find?_cons_of_pos _ (by simp [hk])] at hp
          replace hp : (⟨bid, ask, bq, aq, now⟩ : PriceData) = p := by simpa using hp
          rw [← hp]
          exact ⟨hv.1, hv.2⟩
        · rw [Collector.getExchange, List.find?_cons_of_neg _ (by simp [hk])] at hp
          exact ih sym2 ex2 p hp

/-- C2 witness: concrete valid and invalid updates on concrete stores. -/
theorem c2_update_get_witness :
    (Collector.getExchange (Collector.update [] "bybit" "AMIUSDT" 1 2 3 4 5)
        "AMIUSDT" "bybit" = some ⟨1, 2, 3, 4, 5⟩) ∧
    (Collector.update [] "bybit" "AMIUSDT" 0 2 3 4 5 = []) ∧
    (0 < (1 : ℚ) ∧ 0 < (2 : ℚ)) := by
  refine ⟨c2_update_get.1 [] "bybit" "AMIUSDT" 1 2 3 4 5 (by norm_num) (by norm_num),
    c2_update_get.2.1 [] "bybit" "AMIUSDT" 0 2 3 4 5 (Or.inl le_rfl), ?_⟩
  have hr : Collector.Reachable (Collector.update [] "bybit" "AMIUSDT" 1 2 3 4 5) :=
    Collector.Reachable.update [] "bybit" "AMIUSDT" 1 2 3 4 5 Collector.Reachable.nil
  exact c2_update_get.2.2 _ hr "AMIUSDT" "bybit" ⟨1, 2, 3, 4, 5⟩
    (c2_update_get.1 [] "bybit" "AMIUSDT" 1 2 3 4 5 (by norm_num) (by norm_num))

/-- C7 counterexample. With buy_price 100, sell_price 101, fees 1/100
(all inputs non-negative, fees in the unit interval, gross positive), the
net profit at qty 2 is strictly below the net profit at qty 1, so the
profit function is not non-decreasing in qty whenever gross is positive. -/
theorem c7_counterexample :
    (0 : ℚ) ≤ 100 ∧ (0 : ℚ) ≤ 101 ∧ (0 : ℚ) ≤ 1 ∧ (1 : ℚ) ≤ 2 ∧
    (0 : ℚ) ≤ 1 / 100 ∧ (1 : ℚ) / 100 ≤ 1 ∧
    (0 : ℚ) < 101 - 100 ∧
    (calcProfit 100 101 2 (1 / 100) (1 / 100)).2.2
      < (calcProfit 100 101 1 (1 / 100) (1 / 100)).2.2 := by
  norm_num [calcProfit]

/-- C7 amended. The net-profit function equals
qty (sell - buy) - qty buy f_b - qty sell f_s; it is monotone
non-decreasing in sell_price (qty non-negative, f_s at most 1), monotone
non-increasing in buy_price (qty and f_b non-negative), and monotone
non-decreasing in qty whenever the per-unit net
sell - buy - buy f_b - sell f_s is non-negative (gross positivity alone
does not suffice). -/
theorem c7_amended :
    (∀ b s q fb fs : ℚ,
      (calcProfit b s q fb fs).2.2 = q * (s - b) - q * b * fb - q * s * fs) ∧
    (∀ b s1 s2 q fb fs : ℚ, 0 ≤ q → fs ≤ 1 → s1 ≤ s2 →
      (calcProfit b s1 q fb fs).2.2 ≤ (calcProfit b s2 q fb fs).2.2) ∧
    (∀ b1 b2 s q fb fs : ℚ, 0 ≤ q → 0 ≤ fb → b1 ≤ b2 →
      (calcProfit b2 s q fb fs).2.2 ≤ (calcProfit b1 s q fb fs).2.2) ∧
    (∀ b s q1 q2 fb fs : ℚ, 0 ≤ s - b - b * fb - s * fs → q1 ≤ q2 →
      (calcProfit b s q1 fb fs).2.2 ≤ (calcProfit b s q2 fb fs).2.2) := by
  refine ⟨?_, ?_, ?_, ?_⟩
  · intro b s q fb fs; simp only [calcProfit]; ring
  · intro b s1 s2 q fb fs hq hfs hs
    simp only [calcProfit]
    nlinarith [mul_nonneg (mul_nonneg hq (sub_nonneg.2 hs)) (sub_nonneg.2 hfs)]
  · intro b1 b2 s q fb fs hq hfb hb
    simp only [calcProfit]
    nlinarith [mul_nonneg (mul_nonneg hq (sub_nonneg.2 hb)) hfb,
      mul_nonneg hq (sub_nonneg.2 hb)]
  · intro b s q1 q2 fb fs hnet hq
    simp only [calcProfit]
    nlinarith [mul_nonneg (sub_nonneg.2 hq) hnet]

/-- C7 witness: each amended conjunct applied at concrete inputs. -/
theorem c7_amended_witness :
    ((calcProfit 100 102 2 (1 / 100) (1 / 100)).2.2
      = 2 * (102 - 100) - 2 * 100 * (1 / 100) - 2 * 102 * (1 / 100)) ∧
    ((calcProfit 100 101 2 (1 / 100) (1 / 100)).2.2
      ≤ (calcProfit 100 102 2 (1 / 100) (1 / 100)).2.2) ∧
    ((calcProfit 100 102 2 (1 / 100) (1 / 100)).2.2
      ≤ (calcProfit 99 102 2 (1 / 100) (1 / 100)).2.2) ∧
    ((calcProfit 100 105 1 (1 / 100) (1 / 100)).2.2
      ≤ (calcProfit 100 105 2 (1 / 100) (1 / 100)).2.2) :=
  ⟨c7_amended.1 100 102 2 (1 / 100) (1 / 100),
    c7_amended.2.1 100 101 102 2 (1 / 100) (1 / 100) (by norm_num) (by norm_num)
      (by norm_num),
    c7_amended.2.2.1 99 100 102 2 (1 / 100) (1 / 100) (by norm_num) (by norm_num)
      (by norm_num),
    c7_amended.2.2.2 100 105 1 2 (1 / 100) (1 / 100) (by norm_num) (by norm_num)⟩

/-- C8. When the balance query succeeds with B octas, the computed gas
budget is min(200000, floor(0.9 B) / gas_unit_price); when it falls below
the 5000-unit floor, execute_swap refuses with an insufficient-gas error
and nothing reaches the sign-and-submit step; otherwise exactly the
computed budget is submitted. -/
theorem c8_gas_budget_guard :
    ∀ b : ℕ,
      computeMaxGas (some b) = min 200000 (9 * b / 10 / 100) ∧
      (computeMaxGas (some b) < 5000 →
        execSwapGasStep (some b) = .insufficientGas) ∧
      (¬ computeMaxGas (some b) < 5000 →
        execSwapGasStep (some b) = .submitted (computeMaxGas (some b))) := by
  intro b
  refine ⟨rfl, ?_, ?_⟩
  · intro h
    simp only [execSwapGasStep, MIN_GAS_UNITS]
    rw [if_pos h]
  · intro h
    simp only [execSwapGasStep, MIN_GAS_UNITS]
    rw [if_neg h]

/-- C8 witness: a wallet holding 100000 octas (0.001 APT) yields a budget
of 900 units, below the 5000 floor, and the swap is refused. -/
theorem c8_gas_budget_guard_witness :
    computeMaxGas (some 100000) = min 200000 (9 * 100000 / 10 / 100) ∧
    computeMaxGas (some 100000) < 5000 ∧
    execSwapGasStep (some 100000) = .insufficientGas :=
  ⟨(c8_gas_budget_guard 100000).1, by decide,
    (c8_gas_budget_guard 100000).2.1 (by decide)⟩

/-- C10. When the native-coin balance query fails (none), execute_swap
does not refuse for insufficient gas: it proceeds to sign and submit with
max_gas_amount equal to the full default cap of 200000 units. -/
theorem c10_failed_balance_query_skips_guard :
    execSwapGasStep none = .submitted 200000 ∧
    computeMaxGas none = 200000 ∧ MAX_GAS_UNITS = 200000 :=
  ⟨rfl, rfl, rfl⟩

/-- C1. In live mode (dry-run disabled) the triangular APT_TO_AMI
execution path never runs the balance gate: for every wallet and CEX
balance (however insufficient) and every leg outcome, the action trace
contains no balance check and always issues the DEX swap. The balance
gate is exercised only on the dry-run branch, contradicting the
documented guard list of execute_triangular. -/
theorem c1_live_triangular_skips_balance_gate :
    ∀ (apt_bal : Option ℚ) (cex_ami_bal safe_qty ami_to_sell : ℚ)
      (swap_result cex_result : Option String),
      TriAction.balanceCheck ∉
        (execTriLockedAptToAmi false apt_bal cex_ami_bal safe_qty ami_to_sell
          swap_result cex_result).1 ∧
      TriAction.dexSwap ∈
        (execTriLockedAptToAmi false apt_bal cex_ami_bal safe_qty ami_to_sell
          swap_result cex_result).1 := by
  intro apt_bal cex_ami_bal safe_qty ami_to_sell swap_result cex_result
  cases swap_result <;> cases cex_result <;>
    simp [execTriLockedAptToAmi]

/-- C5. The skip-verify branch of _check_dex_cex raises TypeError instead
of fetching a quote and dispatching: slippage_pct is not a parameter of
PanoraClient.get_swap_quote, so the keyword call fails, shown here at a
concrete profitable detection (Panora ask 0.007 for 10000, CEX bid 0.008
for 10000, estimated profit 9.85 over the threshold 1); moreover with
skip_panora_verify set no input ever reaches the dispatched outcome. -/
theorem c5_skip_verify_raises_type_error :
    panoraGetSwapQuoteParams.contains "slippage_pct" = false ∧
    pyKwargsCall panoraGetSwapQuoteParams engineSkipVerifyKwargs = .error "TypeError" ∧
    checkDexCexDir1 { defaultSettings with skip_panora_verify := true }
        ⟨7 / 1000, 7 / 1000, 10000, 10000, 100⟩
        ⟨8 / 1000, 8 / 1000, 10000, 10000, 100⟩ 100 (1 / 1000)
      = .raisedTypeError ∧
    (∀ (s : Settings) (panora cex : PriceData) (now cex_fee profit : ℚ),
      checkDexCexDir1 { s with skip_panora_verify := true } panora cex now cex_fee
        ≠ .dispatched profit) := by
  have h : pyKwargsCall panoraGetSwapQuoteParams engineSkipVerifyKwargs
      = .error "TypeError" := rfl
  refine ⟨rfl, rfl, ?_, ?_⟩
  · simp only [checkDexCexDir1, h]
    norm_num [PriceData.isStale, PriceData.age, calcProfit, defaultSettings, min_def]
  · intro s panora cex now cex_fee profit
    simp only [checkDexCexDir1, h]
    split
    · simp
    · split
      · simp
      · split
        · simp
        · simp

/-- C3 counterexample. With the default settings, all three quotes aged
5 seconds (older than tri_quote_max_age_s = 2.5, the threshold the claim
says applies), the triangular check does not abort: it proceeds to a
detection with estimated profit 9.96, because the source passes no
max_age to is_stale and the default 10 applies. -/
theorem c3_counterexample :
    (PriceData.age ⟨1, 1, 0, 0, 95⟩ 100 > defaultSettings.tri_quote_max_age_s) ∧
    (PriceData.age ⟨5, 5, 0, 0, 95⟩ 100 > defaultSettings.tri_quote_max_age_s) ∧
    (PriceData.age ⟨10, 10, 0, 0, 95⟩ 100 > defaultSettings.tri_quote_max_age_s) ∧
    checkTriDir1 defaultSettings ⟨1, 1, 0, 0, 95⟩ ⟨5, 5, 0, 0, 95⟩
        (some ⟨10, 10, 0, 0, 95⟩) 100 defaultSettings.bybit_fee
      = .detected (996 / 100) := by
  refine ⟨by norm_num [PriceData.age, defaultSettings],
    by norm_num [PriceData.age, defaultSettings],
    by norm_num [PriceData.age, defaultSettings], ?_⟩
  norm_num [checkTriDir1, PriceData.isStale, PriceData.age, defaultSettings]

/-- C3 amended. The engine checks every quote against the uniform default
threshold of 10 seconds (the configured dex_cex_quote_max_age_s and
tri_quote_max_age_s settings are never passed to is_stale): a required
quote older than 10 seconds makes the triangular check, respectively the
DEX-CEX check, abort with no detection, and when every required quote is
at most 10 seconds old neither check aborts at the staleness gate. -/
theorem c3_amended :
    (∀ (s : Settings) (cex_ami cex_apt : PriceData) (pan : Option PriceData)
        (now cex_fee : ℚ),
      cex_ami.age now > 10 ∨ cex_apt.age now > 10 →
      checkTriDir1 s cex_ami cex_apt pan now cex_fee = .staleAbort) ∧
    (∀ (s : Settings) (cex_ami cex_apt pan : PriceData) (now cex_fee : ℚ),
      pan.age now > 10 →
      checkTriDir1 s cex_ami cex_apt (some pan) now cex_fee = .staleAbort) ∧
    (∀ (s : Settings) (cex_ami cex_apt pan : PriceData) (now cex_fee : ℚ),
      cex_ami.age now ≤ 10 → cex_apt.age now ≤ 10 → pan.age now ≤ 10 →
      checkTriDir1 s cex_ami cex_apt (some pan) now cex_fee ≠ .staleAbort) ∧
    (∀ (s : Settings) (panora cex : PriceData) (now cex_fee : ℚ),
      panora.age now > 10 ∨ cex.age now > 10 →
      checkDexCexDir1 s panora cex now cex_fee = .staleAbort) ∧
    (∀ (s : Settings) (panora cex : PriceData) (now cex_fee : ℚ),
      panora.age now ≤ 10 → cex.age now ≤ 10 →
      checkDexCexDir1 s panora cex now cex_fee ≠ .staleAbort) := by
  refine ⟨?_, ?_, ?_, ?_, ?_⟩
  · intro s a b pan now fee h
    have hs : (a.isStale now || b.isStale now) = true := by
      rcases h with h | h <;> simp [PriceData.isStale, h]
    rw [checkTriDir1.eq_def, if_pos hs]
  · intro s a b pan now fee h
    have hp : pan.isStale now = true := by simp [PriceData.isStale, h]
    rw [checkTriDir1.eq_def]
    split
    · rfl
    · simp [hp]
  · intro s a b pan now fee h1 h2 h3
    have hs : (a.isStale now || b.isStale now) = false := by
      simp only [PriceData.isStale, Bool.or_eq_false_iff, decide_eq_false_iff_not,
        not_lt]
      exact ⟨h1, h2⟩
    have hp : pan.isStale now = false := by
      simp only [PriceData.isStale, decide_eq_false_iff_not, not_lt]
      exact h3
    rw [checkTriDir1.eq_def]
    simp only [hs, hp, Bool.false_eq_true, if_false]
    split <;> simp
  · intro s panora cex now fee h
    have hs : (panora.isStale now || cex.isStale now) = true := by
      rcases h with h | h <;> simp [PriceData.isStale, h]
    rw [checkDexCexDir1, if_pos hs]
  · intro s panora cex now fee h1 h2
    have hs : (panora.isStale now || cex.isStale now) = false := by
      simp only [PriceData.isStale, Bool.or_eq_false_iff, decide_eq_false_iff_not,
        not_lt]
      exact ⟨h1, h2⟩
    rw [checkDexCexDir1, hs]
    simp only [Bool.false_eq_true, if_false]
    split
    · simp
    · split
      · simp
      · split
        · rw [show pyKwargsCall panoraGetSwapQuoteParams engineSkipVerifyKwargs
              = Except.error "TypeError" from rfl]
          simp
        · simp

/-- C3 amended witness: concrete stale and fresh quotes for each gate. -/
theorem c3_amended_witness :
    (checkTriDir1 defaultSettings ⟨1, 1, 0, 0, 0⟩ ⟨1, 1, 0, 0, 0⟩ none 20 0
      = .staleAbort) ∧
    (checkTriDir1 defaultSettings ⟨1, 1, 0, 0, 20⟩ ⟨1, 1, 0, 0, 20⟩
        (some ⟨1, 1, 0, 0, 0⟩) 20 0 = .staleAbort) ∧
    (checkTriDir1 defaultSettings ⟨1, 1, 0, 0, 5⟩ ⟨1, 1, 0, 0, 5⟩
        (some ⟨1, 1, 0, 0, 5⟩) 6 0 ≠ .staleAbort) ∧
    (checkDexCexDir1 defaultSettings ⟨1, 1, 0, 0, 0⟩ ⟨1, 1, 0, 0, 0⟩ 20 0
      = .staleAbort) ∧
    (checkDexCexDir1 defaultSettings ⟨1, 1, 0, 0, 5⟩ ⟨1, 1, 0, 0, 5⟩ 6 0
      ≠ .staleAbort) :=
  ⟨c3_amended.1 defaultSettings _ _ none 20 0
      (Or.inl (by norm_num [PriceData.age])),
    c3_amended.2.1 defaultSettings _ _ _ 20 0 (by norm_num [PriceData.age]),
    c3_amended.2.2.1 defaultSettings _ _ _ 6 0 (by norm_num [PriceData.age])
      (by norm_num [PriceData.age]) (by norm_num [PriceData.age]),
    c3_amended.2.2.2.1 defaultSettings _ _ 20 0
      (Or.inl (by norm_num [PriceData.age])),
    c3_amended.2.2.2.2 defaultSettings _ _ 6 0 (by norm_num [PriceData.age])
      (by norm_num [PriceData.age])⟩

/-- C6. A real quote response with positive input a and output b stores
unit price b / a for the direction; a later get_swap_quote with
force_fresh false, an exact-cache miss, and that entry younger than the
TTL returns a synthetic quote with toTokenAmount exactly (b / a) times
the requested amount; and an entry older than the TTL never synthesizes
a quote. -/
theorem c6_unit_price_cache :
    (∀ (st : ClientState) (f t : String) (a b now : ℚ), 0 < a → 0 < b →
      findUnitPriceEntry (storeUnitPrice st f t a b now) f t = some (b / a, now)) ∧
    (∀ (st : ClientState) (f t : String) (a b a2 t0 now ttl : ℚ),
      0 < a → 0 < b →
      getCachedQuote (storeUnitPrice st f t a b t0) f t a2 now ttl = none →
      now - t0 < ttl →
      getSwapQuoteCached (storeUnitPrice st f t a b t0) f t a2 false now ttl
        = .synthetic (b / a * a2) (b / a)) ∧
    (∀ (st : ClientState) (f t : String) (a2 now ttl p t0 : ℚ),
      findUnitPriceEntry st f t = some (p, t0) →
      now - t0 > ttl →
      ∀ x y, getSwapQuoteCached st f t a2 false now ttl ≠ .synthetic x y) := by
  have hstore : ∀ (st : ClientState) (f t : String) (a b now : ℚ),
      0 < a → 0 < b →
      findUnitPriceEntry (storeUnitPrice st f t a b now) f t = some (b / a, now) := by
    intro st f t a b now ha hb
    rw [storeUnitPrice, if_pos ⟨ha, hb⟩, findUnitPriceEntry]
    rw [List.find?_cons_of_pos _ (by simp)]
    rfl
  refine ⟨hstore, ?_, ?_⟩
  · intro st f t a b a2 t0 now ttl ha hb hmiss hfresh
    rw [getSwapQuoteCached, if_neg (by simp), hmiss]
    rw [getUnitPrice, hstore st f t a b t0 ha hb]
    simp [hfresh]
  · intro st f t a2 now ttl p t0 hentry hstale x y
    have hup : getUnitPrice st f t now ttl = none := by
      rw [getUnitPrice, hentry]
      simp [not_lt.mpr hstale.le]
    rw [getSwapQuoteCached, if_neg (by simp)]
    rcases hq : getCachedQuote st f t a2 now ttl with _ | q
    · rw [hup]; simp
    · simp

/-- C6 witness: storing a real response of 6 output for 2 input and then
asking for amount 5 one second later (TTL 2) yields the synthetic amount
15 at unit price 3; the same entry aged past the TTL never synthesizes. -/
theorem c6_unit_price_cache_witness :
    (0 : ℚ) < 2 ∧ (0 : ℚ) < 6 ∧
    findUnitPriceEntry (storeUnitPrice ⟨[], []⟩ "F" "T" 2 6 0) "F" "T"
      = some (3, 0) ∧
    getSwapQuoteCached (storeUnitPrice ⟨[], []⟩ "F" "T" 2 6 0) "F" "T" 5 false 1 2
      = .synthetic 15 3 ∧
    getSwapQuoteCached ⟨[], [(("F", "T"), (3, 0))]⟩ "F" "T" 5 false 5 2
      ≠ .synthetic 15 3 := by
  refine ⟨by norm_num, by norm_num, ?_, ?_, ?_⟩
  · have h := c6_unit_price_cache.1 ⟨[], []⟩ "F" "T" 2 6 0 (by norm_num) (by norm_num)
    norm_num at h
    exact h
  · have h := c6_unit_price_cache.2.1 ⟨[], []⟩ "F" "T" 2 6 5 0 1 2 (by norm_num)
      (by norm_num) rfl (by norm_num)
    norm_num at h
    exact h
  · exact c6_unit_price_cache.2.2 ⟨[], [(("F", "T"), (3, 0))]⟩ "F" "T" 5 5 2 3 0
      rfl (by norm_num) 15 3

/-- Helper for C4: along any run, the last-verify bookkeeping guarantees
that the stored time for a key is at least three seconds older than every
verify call later issued for that key, link by link. -/
theorem engineVerifyRun_chain (k : String) :
    ∀ (events : List (String × ℚ)) (st : VerifyState),
      List.Chain' (fun t1 t2 => t1 + VERIFY_COOLDOWN_S ≤ t2)
        (lookupLastVerify st k :: callsFor k (engineVerifyRun st events)) := by
  intro events
  induction events with
  | nil => intro st; simp [engineVerifyRun, callsFor]
  | cons e es ih =>
    intro st
    rw [engineVerifyRun]
    split
    · exact ih st
    · rename_i h
      by_cases hk : e.1 = k
      · have hcf : callsFor k (e :: engineVerifyRun ((e.1, e.2) :: st) es)
            = e.2 :: callsFor k (engineVerifyRun ((e.1, e.2) :: st) es) := by
          simp [callsFor, hk]
        rw [hcf, List.chain'_cons]
        constructor
        · have h2 := not_lt.mp h
          rw [hk] at h2
          linarith
        · have hl : lookupLastVerify ((e.1, e.2) :: st) k = e.2 := by
            rw [lookupLastVerify, List.find?_cons_of_pos _ (by simp [hk])]
          have h2 := ih ((e.1, e.2) :: st)
          rwa [hl] at h2
      · have hcf : callsFor k (e :: engineVerifyRun ((e.1, e.2) :: st) es)
            = callsFor k (engineVerifyRun ((e.1, e.2) :: st) es) := by
          simp [callsFor, hk]
        rw [hcf]
        have hl : lookupLastVerify ((e.1, e.2) :: st) k
            = lookupLastVerify st k := by
          rw [lookupLastVerify, List.find?_cons_of_neg _ (by simp [hk]),
            lookupLastVerify]
        have h2 := ih ((e.1, e.2) :: st)
        rwa [hl] at h2

/-- C4. Starting from an empty last-verify table, for every sequence of
engine ticks that observe a profitable opportunity and for every
direction key, any two verify calls issued for that key are at least
VERIFY_COOLDOWN_S = 3 seconds apart: no second verify call for a
direction occurs within the cooldown window. -/
theorem c4_verify_cooldown :
    ∀ (events : List (String × ℚ)) (k : String),
      (callsFor k (engineVerifyRun [] events)).Pairwise
        (fun t1 t2 => t1 + VERIFY_COOLDOWN_S ≤ t2) := by
  intro events k
  have h := (engineVerifyRun_chain k events []).tail
  simp only [List.tail_cons] at h
  haveI : IsTrans ℚ (fun t1 t2 => t1 + VERIFY_COOLDOWN_S ≤ t2) := by
    constructor
    intro a b c hab hbc
    simp only [VERIFY_COOLDOWN_S] at *
    linarith
  exact List.chain'_iff_pairwise.mp h

/-- C9. The tiered exchange-precision flooring is idempotent on
non-negative quantities, and a quantity that floors to a non-positive
value makes the CEX sell leg abort with an error instead of placing an
order. -/
theorem c9_floor_qty :
    (∀ x : ℚ, 0 ≤ x → floorQty (floorQty x) = floorQty x) ∧
    (∀ q : ℚ, floorQty q ≤ 0 → cexSell q = .qtyZeroError) := by
  constructor
  · intro x hx
    rcases le_or_lt 100 x with h1 | h1
    · have hy : floorQty x = (⌊x⌋ : ℚ) := by rw [floorQty, if_pos h1]
      have h100 : (100 : ℚ) ≤ (⌊x⌋ : ℚ) := by
        have h : (100 : ℤ) ≤ ⌊x⌋ := Int.le_floor.mpr (by exact_mod_cast h1)
        exact_mod_cast h
      rw [hy, floorQty, if_pos h100, Int.floor_intCast]
    · rcases le_or_lt 1 x with h2 | h2
      · have hfl_le : (⌊x * 100⌋ : ℚ) ≤ x * 100 := Int.floor_le _
        have hfl_ge : (100 : ℚ) ≤ (⌊x * 100⌋ : ℚ) := by
          have h : (100 : ℤ) ≤ ⌊x * 100⌋ := Int.le_floor.mpr (by push_cast; linarith)
          exact_mod_cast h
        have hy : floorQty x = (⌊x * 100⌋ : ℚ) / 100 := by
          rw [floorQty, if_neg (not_le.mpr h1), if_pos h2]
        have hy1 : (1 : ℚ) ≤ (⌊x * 100⌋ : ℚ) / 100 := by
          rw [le_div_iff₀ (by norm_num : (0 : ℚ) < 100)]; linarith
        have hyx : (⌊x * 100⌋ : ℚ) / 100 ≤ x := by
          rw [div_le_iff₀ (by norm_num : (0 : ℚ) < 100)]; linarith
        have hy100 : ¬ ((⌊x * 100⌋ : ℚ) / 100 ≥ 100) := by
          intro hcon; simp only [ge_iff_le] at hcon; linarith
        rw [hy, floorQty, if_neg hy100, if_pos hy1]
        have hmul : (⌊x * 100⌋ : ℚ) / 100 * 100 = (⌊x * 100⌋ : ℚ) := by
          field_simp
        rw [hmul, Int.floor_intCast]
      · rcases le_or_lt (1 / 100 : ℚ) x with h3 | h3
        · have hfl_le : (⌊x * 10000⌋ : ℚ) ≤ x * 10000 := Int.floor_le _
          have hfl_ge : (100 : ℚ) ≤ (⌊x * 10000⌋ : ℚ) := by
            have h : (100 : ℤ) ≤ ⌊x * 10000⌋ :=
              Int.le_floor.mpr (by push_cast; linarith)
            exact_mod_cast h
          have hy : floorQty x = (⌊x * 10000⌋ : ℚ) / 10000 := by
            rw [floorQty, if_neg (not_le.mpr h1), if_neg (not_le.mpr h2), if_pos h3]
          have hyx : (⌊x * 10000⌋ : ℚ) / 10000 ≤ x := by
            rw [div_le_iff₀ (by norm_num : (0 : ℚ) < 10000)]; linarith
          have hyc : (1 / 100 : ℚ) ≤ (⌊x * 10000⌋ : ℚ) / 10000 := by
            rw [div_le_div_iff₀ (by norm_num) (by norm_num : (0 : ℚ) < 10000)]
            linarith
          have hy100 : ¬ ((⌊x * 10000⌋ : ℚ) / 10000 ≥ 100) := by
            intro hcon; simp only [ge_iff_le] at hcon; linarith
          have hy1 : ¬ ((⌊x * 10000⌋ : ℚ) / 10000 ≥ 1) := by
            intro hcon; simp only [ge_iff_le] at hcon; linarith
          rw [hy, floorQty, if_neg hy100, if_neg hy1, if_pos hyc]
          have hmul : (⌊x * 10000⌋ : ℚ) / 10000 * 10000 = (⌊x * 10000⌋ : ℚ) := by
            field_simp
          rw [hmul, Int.floor_intCast]
        · have hfl_le : (⌊x * 1000000⌋ : ℚ) ≤ x * 1000000 := Int.floor_le _
          have hy : floorQty x = (⌊x * 1000000⌋ : ℚ) / 1000000 := by
            rw [floorQty, if_neg (not_le.mpr h1), if_neg (not_le.mpr h2),
              if_neg (not_le.mpr h3)]
          have hyx : (⌊x * 1000000⌋ : ℚ) / 1000000 ≤ x := by
            rw [div_le_iff₀ (by norm_num : (0 : ℚ) < 1000000)]; linarith
          have hy100 : ¬ ((⌊x * 1000000⌋ : ℚ) / 1000000 ≥ 100) := by
            intro hcon; simp only [ge_iff_le] at hcon; linarith
          have hy1 : ¬ ((⌊x * 1000000⌋ : ℚ) / 1000000 ≥ 1) := by
            intro hcon; simp only [ge_iff_le] at hcon; linarith
          have hyc : ¬ ((⌊x * 1000000⌋ : ℚ) / 1000000 ≥ 1 / 100) := by
            intro hcon; simp only [ge_iff_le] at hcon
            rw [div_le_div_iff₀ (by norm_num) (by norm_num : (0 : ℚ) < 1000000)]
              at hcon
            linarith
          rw [hy, floorQty, if_neg hy100, if_neg hy1, if_neg hyc]
          have hmul : (⌊x * 1000000⌋ : ℚ) / 1000000 * 1000000
              = (⌊x * 1000000⌋ : ℚ) := by
            field_simp
          rw [hmul, Int.floor_intCast]
  · intro q h
    show (if floorQty q ≤ 0 then CexLegOutcome.qtyZeroError
      else CexLegOutcome.orderPlaced (floorQty q)) = CexLegOutcome.qtyZeroError
    rw [if_pos h]

/-- C9 witness: 1.5 floors idempotently, and the quantity 1/2000000
floors to zero so the leg aborts. -/
theorem c9_floor_qty_witness :
    (0 : ℚ) ≤ 3 / 2 ∧ floorQty (floorQty (3 / 2)) = floorQty (3 / 2) ∧
    floorQty (1 / 2000000) ≤ 0 ∧
    cexSell (1 / 2000000) = .qtyZeroError := by
  have hz : floorQty (1 / 2000000 : ℚ) ≤ 0 := by
    rw [floorQty]
    norm_num
  exact ⟨by norm_num, c9_floor_qty.1 (3 / 2) (by norm_num), hz,
    c9_floor_qty.2 (1 / 2000000) hz⟩

end ArbAmi
